import Mathlib

/-!
Verification development for the minipar lexical analyzer.

Shallow embedding of the repository's three Python files:
  * `src/lexer.py`  — `TokenType`, `Token`, `Scanner` and its methods;
  * `src/error.py`  — `report(line, msg)`, modelled as appending to a list of
    `(line, message)` pairs carried in the scanner state (the logging side
    channel, in call order);
  * `src/main.py`   — the `hadError` flag and the `run_file` exit decision.

Python runtime behaviour that matters here is modelled explicitly:
  * `self.source[i]` on an out-of-range index raises `IndexError`;
  * calling `.isdigit()` / `.isalnum()` on the `None` returned by `_peek()`
    or `_peek_next()` at end of input raises `AttributeError`;
  * a raised exception propagates out of `scan_tokens` (there is no
    `try`/`except` anywhere in the repository), modelled with `Except`;
  * Python's structural `match` takes the FIRST matching arm, so the second
    `case "/"` arm of `_scan_token` (lexer.py:330, block comments) is
    unreachable: the arm at lexer.py:287 already handles `'/'`.

Character classes: `str.isdigit` / `str.isalpha` / `str.isalnum` are modelled
by their ASCII restrictions (`Char.isDigit`, `Char.isAlpha`), which agree with
Python on every input used in this file; the spec itself limits the lexical
rules to ASCII letters/digits/underscore.

Loops are written with an explicit fuel argument so that every definition is
structurally recursive and computable by `rfl`/`decide`.  Every loop consumes
at least one character per iteration, so the fuel `source.length + 1` passed
at each call site is never exhausted on the paths the theorems below touch;
exhaustion is represented by the distinguished value `PyError.fuelOut`, which
never occurs in any evaluation in this file.
-/

/-- `TokenType` enumeration from lexer.py:6-45. -/
inductive TokenType where
  | LEFT_PAREN | RIGHT_PAREN | LEFT_BRACE | RIGHT_BRACE
  | COMMA | DOT | MINUS | PLUS
  | SEMICOLON | SLASH | STAR | LESS
  | NOT | GREATER | ASSIGN | TYPEOF
  | NAME | NUMBER | STRING
  | SCOMMENT | MCOMMENT
  | RARROW | OR | AND | EQ
  | NEQ | LTE | GTE | NEWLINE
  | FUNC | IF | ELSE
  | WHILE | RETURN | BREAK | CONTINUE
  | SEQ | PAR | C_CHANNEL | S_CHANNEL | FOR
  | WHITESPACE
  | NUMBER_TYPE | BOOL_TYPE | STRING_TYPE | VOID_TYPE
  | OTHER
  deriving DecidableEq, Repr

/-- A token's `literal` attribute: `None`, a `float` (modelled exactly as a
rational; IEEE rounding is irrelevant for the values arising here), or a
string.  Matches the `object` field of `Token` in lexer.py:58. -/
inductive Literal where
  | none
  | num (q : ℚ)
  | str (s : String)
  deriving DecidableEq, Repr

/-- `Token` record from lexer.py:47-65. -/
structure Token where
  _type : TokenType
  lexeme : String
  literal : Literal
  line : Nat
  deriving DecidableEq, Repr

/-- Python exceptions that the scanner can raise, plus the fuel-exhaustion
marker of the embedding (never reached with the fuel used here). -/
inductive PyError where
  | attributeError
  | indexError
  | fuelOut
  deriving DecidableEq, Repr

/-- `Scanner` state (lexer.py:107-111) plus the `error.report` side channel:
`reports` records every `report(line, msg)` call in order. -/
structure Scanner where
  source : List Char
  tokens : List Token
  start : Nat
  current : Nat
  line : Nat
  reports : List (Nat × String)
  deriving DecidableEq, Repr

/-- `Scanner.__init__` (lexer.py:113-115): sets `source` and `tokens`;
`start = 0`, `current = 0`, `line = 1` are the class-level defaults
(lexer.py:109-111), which each fresh instance starts from (all later writes
create instance attributes, so instances never interfere). -/
def initScanner (s : String) : Scanner :=
  { source := s.data, tokens := [], start := 0, current := 0, line := 1, reports := [] }

/-- Python slice `l[a:b]` on a string's character list (clamping semantics). -/
def pySlice (l : List Char) (a b : Nat) : List Char :=
  (l.take b).drop a

/-- Python slice `source[a:b]` as a `String`. -/
def sliceStr (l : List Char) (a b : Nat) : String :=
  ⟨pySlice l a b⟩

/-- Value of a run of ASCII digits. -/
def digitsVal (l : List Char) : Nat :=
  l.foldl (fun a c => a * 10 + (c.toNat - 48)) 0

/-- `float(lexeme)` for the numeral shapes produced by `_number`
(digits, optionally `'.'` then digits); exact rational value. -/
def pyFloat (l : List Char) : ℚ :=
  let intPart := l.takeWhile (fun c => c ≠ '.')
  match l.dropWhile (fun c => c ≠ '.') with
  | [] => (digitsVal intPart : ℚ)
  | _ :: frac => (digitsVal intPart : ℚ) + (digitsVal frac : ℚ) / ((10 : ℚ) ^ frac.length)

/-- The `keywords` class attribute (lexer.py:88-105). -/
def keywords : List (String × TokenType) :=
  [("func", .FUNC), ("if", .IF), ("else", .ELSE), ("while", .WHILE),
   ("return", .RETURN), ("break", .BREAK), ("continue", .CONTINUE),
   ("seq", .SEQ), ("par", .PAR), ("c_channel", .C_CHANNEL),
   ("s_channel", .S_CHANNEL), ("for", .FOR), ("number", .NUMBER_TYPE),
   ("bool", .BOOL_TYPE), ("string", .STRING_TYPE), ("void", .VOID_TYPE)]

/-- `self.keywords.get(text, TokenType.NAME)` (lexer.py:265). -/
def keywordLookup (t : String) : TokenType :=
  match keywords.find? (fun p => p.1 == t) with
  | some p => p.2
  | none => .NAME

/-- `_is_at_end` (lexer.py:117-129). -/
def Scanner.is_at_end (sc : Scanner) : Bool :=
  sc.source.length ≤ sc.current

/-- `_advance` (lexer.py:131-144): `self.source[self.current]` raises
`IndexError` when out of range, otherwise returns the character and
increments `current`. -/
def Scanner.advance (sc : Scanner) : Except PyError (Char × Scanner) :=
  if h : sc.current < sc.source.length then
    .ok (sc.source[sc.current], { sc with current := sc.current + 1 })
  else
    .error .indexError

/-- `_add_token` (lexer.py:146-159): appends a token whose lexeme is
`source[start:current]` at the moment of the call. -/
def Scanner.add_token (sc : Scanner) (t : TokenType) (lit : Literal) : Scanner :=
  { sc with tokens :=
      sc.tokens ++ [{ _type := t, lexeme := sliceStr sc.source sc.start sc.current,
                      literal := lit, line := sc.line }] }

/-- `_match` (lexer.py:161-179); named `matchChar` because `match` is a Lean
keyword.  Returns `False` at end of input or on mismatch (consuming nothing),
otherwise consumes the character and returns `True`. -/
def Scanner.matchChar (sc : Scanner) (expected : Char) : Bool × Scanner :=
  if h : sc.current < sc.source.length then
    if sc.source[sc.current] = expected then
      (true, { sc with current := sc.current + 1 })
    else
      (false, sc)
  else
    (false, sc)

/-- `_peek` (lexer.py:181-193): `None` at end of input. -/
def Scanner.peek (sc : Scanner) : Option Char :=
  if h : sc.current < sc.source.length then some sc.source[sc.current] else none

/-- `_peek_next` (lexer.py:195-208). -/
def Scanner.peek_next (sc : Scanner) : Option Char :=
  if h : sc.current + 1 < sc.source.length then some (sc.source[sc.current + 1]) else none

/-- `error.report(line, msg)` (error.py:3-18): the logger call, recorded on
the side channel.  It touches nothing else — in particular it never writes
`main.hadError`. -/
def Scanner.report (sc : Scanner) (msg : String) : Scanner :=
  { sc with reports := sc.reports ++ [(sc.line, msg)] }

/-- The `while` loop of `_string` (lexer.py:219-221): consume while not at
end and the current character is not `'"'`, bumping `line` on `'\n'`. -/
def Scanner.stringLoop : Nat → Scanner → Except PyError Scanner
  | 0, _ => .error .fuelOut
  | fuel + 1, sc =>
    if h : sc.current < sc.source.length then
      if sc.source[sc.current] = '"' then
        .ok sc
      else if sc.source[sc.current] = '\n' then
        Scanner.stringLoop fuel { sc with line := sc.line + 1, current := sc.current + 1 }
      else
        Scanner.stringLoop fuel { sc with current := sc.current + 1 }
    else
      .ok sc

/-- `_string` (lexer.py:210-229): on end of input report
"Unterminated string." and emit no token; otherwise consume the closing
quote and emit a STRING token whose literal strips the quotes. -/
def Scanner.string (sc : Scanner) : Except PyError Scanner :=
  match Scanner.stringLoop (sc.source.length + 1) sc with
  | .error e => .error e
  | .ok sc1 =>
    if sc1.source.length ≤ sc1.current then
      .ok (sc1.report "Unterminated string.")
    else
      let sc2 : Scanner := { sc1 with current := sc1.current + 1 }
      .ok (sc2.add_token .STRING (.str (sliceStr sc2.source (sc2.start + 1) (sc2.current - 1))))

/-- The digit loops of `_number` (lexer.py:239-240 and 244):
`while self._peek().isdigit(): self._advance()`.  At end of input `_peek()`
returns `None` and `.isdigit()` raises `AttributeError`. -/
def Scanner.numberLoop : Nat → Scanner → Except PyError Scanner
  | 0, _ => .error .fuelOut
  | fuel + 1, sc =>
    if h : sc.current < sc.source.length then
      if (sc.source[sc.current]).isDigit then
        Scanner.numberLoop fuel { sc with current := sc.current + 1 }
      else
        .ok sc
    else
      .error .attributeError

/-- The fractional-part step of `_number` (lexer.py:242-244):
`if self._peek() == '.' and self._peek_next().isdigit(): ...`.  Short-circuit:
`_peek_next()` is only evaluated when `_peek()` returned `'.'`, and if it is
`None` the `.isdigit()` call raises `AttributeError`. -/
def numberFrac (sc : Scanner) : Except PyError Scanner :=
  if sc.peek = some '.' then
    match sc.peek_next with
    | none => .error .attributeError
    | some c2 =>
      if c2.isDigit then
        Scanner.numberLoop (sc.source.length + 1) { sc with current := sc.current + 1 }
      else
        .ok sc
  else
    .ok sc

/-- `_number` (lexer.py:231-246). -/
def Scanner.number (sc : Scanner) : Except PyError Scanner :=
  match Scanner.numberLoop (sc.source.length + 1) sc with
  | .error e => .error e
  | .ok sc1 =>
    match numberFrac sc1 with
    | .error e => .error e
    | .ok sc3 =>
      .ok (sc3.add_token .NUMBER (.num (pyFloat (pySlice sc3.source sc3.start sc3.current))))

/-- The loop of `_name` (lexer.py:261-262):
`while self._peek().isalnum() or self._peek() == '_': self._advance()`.
`isalnum` is evaluated first, so at end of input the `None.isalnum()` call
raises `AttributeError`. -/
def Scanner.nameLoop : Nat → Scanner → Except PyError Scanner
  | 0, _ => .error .fuelOut
  | fuel + 1, sc =>
    if h : sc.current < sc.source.length then
      if (sc.source[sc.current]).isAlpha || (sc.source[sc.current]).isDigit
          || sc.source[sc.current] = '_' then
        Scanner.nameLoop fuel { sc with current := sc.current + 1 }
      else
        .ok sc
    else
      .error .attributeError

/-- `_name` (lexer.py:248-266). -/
def Scanner.name (sc : Scanner) : Except PyError Scanner :=
  match Scanner.nameLoop (sc.source.length + 1) sc with
  | .error e => .error e
  | .ok sc1 =>
    .ok (sc1.add_token (keywordLookup (sliceStr sc1.source sc1.start sc1.current)) .none)

/-- The `'#'` arm of `_scan_token` (lexer.py:327-329):
`while not self._match("\n"): self._advance()`.  When `_match` succeeds it
CONSUMES the newline (without touching `line`); at end of input `_match`
returns `False` and the subsequent `_advance` raises `IndexError`. -/
def Scanner.hashLoop : Nat → Scanner → Except PyError Scanner
  | 0, _ => .error .fuelOut
  | fuel + 1, sc =>
    if h : sc.current < sc.source.length then
      if sc.source[sc.current] = '\n' then
        .ok { sc with current := sc.current + 1 }
      else
        Scanner.hashLoop fuel { sc with current := sc.current + 1 }
    else
      .error .indexError

/-- The f-string `f"Unexpected character {c}. "` of lexer.py:352. -/
def unexpectedCharMsg (c : Char) : String :=
  "Unexpected character " ++ String.singleton c ++ ". "

/-- `_scan_token` (lexer.py:268-353).  The arms appear in source order; the
second `case "/"` arm (lexer.py:330-338, block comments) is omitted because
Python's `match` statement takes the first matching arm — the `case '/'` at
lexer.py:287 already claims every `'/'`, so the block-comment code is
unreachable. -/
def Scanner.scan_token (sc0 : Scanner) : Except PyError Scanner :=
  match sc0.advance with
  | .error e => .error e
  | .ok (c, sc) =>
    if c = '(' then .ok (sc.add_token .LEFT_PAREN .none)
    else if c = ')' then .ok (sc.add_token .RIGHT_PAREN .none)
    else if c = '\x7b' then .ok (sc.add_token .LEFT_BRACE .none)
    else if c = '\x7d' then .ok (sc.add_token .RIGHT_BRACE .none)
    else if c = ',' then .ok (sc.add_token .COMMA .none)
    else if c = '.' then .ok (sc.add_token .DOT .none)
    else if c = '+' then .ok (sc.add_token .PLUS .none)
    else if c = ';' then .ok (sc.add_token .SEMICOLON .none)
    else if c = '/' then .ok (sc.add_token .SLASH .none)
    else if c = '*' then .ok (sc.add_token .STAR .none)
    else if c = ':' then .ok (sc.add_token .TYPEOF .none)
    else if c = '-' then
      match sc.matchChar '>' with
      | (true, sc1) => .ok (sc1.add_token .RARROW .none)
      | (false, sc1) => .ok (sc1.add_token .MINUS .none)
    else if c = '!' then
      match sc.matchChar '=' with
      | (true, sc1) => .ok (sc1.add_token .NEQ .none)
      | (false, sc1) => .ok (sc1.add_token .NOT .none)
    else if c = '|' then
      match sc.matchChar '|' with
      | (true, sc1) => .ok (sc1.add_token .OR .none)
      | (false, sc1) => .ok ((sc1.report "Unexpected character.").add_token .OTHER .none)
    else if c = '&' then
      match sc.matchChar '&' with
      | (true, sc1) => .ok (sc1.add_token .AND .none)
      | (false, sc1) => .ok ((sc1.report "Unexpected character.").add_token .OTHER .none)
    else if c = '=' then
      match sc.matchChar '=' with
      | (true, sc1) => .ok (sc1.add_token .EQ .none)
      | (false, sc1) => .ok (sc1.add_token .ASSIGN .none)
    else if c = '<' then
      match sc.matchChar '=' with
      | (true, sc1) => .ok (sc1.add_token .LTE .none)
      | (false, sc1) => .ok (sc1.add_token .LESS .none)
    else if c = '>' then
      match sc.matchChar '=' with
      | (true, sc1) => .ok (sc1.add_token .GTE .none)
      | (false, sc1) => .ok (sc1.add_token .GREATER .none)
    else if c = '#' then
      Scanner.hashLoop (sc.source.length + 1) sc
    else if c = ' ' then .ok sc
    else if c = '\t' then .ok sc
    else if c = '\r' then .ok sc
    else if c = '\n' then .ok { sc with line := sc.line + 1 }
    else if c = '"' then
      sc.string
    else if c.isDigit then
      sc.number
    else if c.isAlpha || c = '_' then
      sc.name
    else
      .ok ((sc.report (unexpectedCharMsg c)).add_token .OTHER .none)

/-- The `while` loop of `scan_tokens` (lexer.py:368-370): while not at end,
set `start := current` and run `_scan_token`. -/
def Scanner.scanLoop : Nat → Scanner → Except PyError Scanner
  | 0, sc =>
    if sc.source.length ≤ sc.current then .ok sc else .error .fuelOut
  | fuel + 1, sc =>
    if sc.source.length ≤ sc.current then
      .ok sc
    else
      match ({ sc with start := sc.current } : Scanner).scan_token with
      | .error e => .error e
      | .ok sc1 => Scanner.scanLoop fuel sc1

/-- `scan_tokens` (lexer.py:355-372): runs the loop and returns
`self.tokens`.  An exception raised inside the loop propagates to the
caller (modelled by `Except.error`). -/
def Scanner.scan_tokens (sc : Scanner) : Except PyError (List Token) :=
  (Scanner.scanLoop (sc.source.length + 1) sc).map Scanner.tokens

/-- End-to-end scanner state after `Scanner(s).scan_tokens()`. -/
def scanResult (s : String) : Except PyError Scanner :=
  Scanner.scanLoop (s.data.length + 1) (initScanner s)

/-- Token list of `Scanner(s).scan_tokens()`. -/
def scanTokensOf (s : String) : Except PyError (List Token) :=
  (initScanner s).scan_tokens

/-- Sequence of `error.report` calls made while scanning `s`. -/
def scanReportsOf (s : String) : Except PyError (List (Nat × String)) :=
  (scanResult s).map Scanner.reports

/-- Model of `main.run_file` on a file whose contents are `s`
(main.py:6-44): `hadError` is the module-level flag, initialized `False`
(main.py:6) and never assigned anywhere — `error.report` only logs — so
after `run(source)` it is still `False` and the `sys.exit(65)` branch is
never taken.  Result: `(tokens, reports, hadError, explicit exit code)`. -/
def runFile (s : String) : Except PyError (List Token × List (Nat × String) × Bool × Option Nat) :=
  match scanResult s with
  | .error e => .error e
  | .ok sc =>
    let hadError : Bool := false
    .ok (sc.tokens, sc.reports, hadError, if hadError then some 65 else none)

/-- Facts preserved by the scanner's inner loops and by `_match`: `source`,
`start`, `tokens` and `reports` are untouched, `current` is monotone and
stays within bounds. -/
def LoopPreserves (sc sc1 : Scanner) : Prop :=
  sc1.source = sc.source ∧ sc1.start = sc.start ∧ sc1.tokens = sc.tokens ∧
  sc1.reports = sc.reports ∧ sc.current ≤ sc1.current ∧
  (sc.current ≤ sc.source.length → sc1.current ≤ sc.source.length)

/-- What one successful `_scan_token` step does, relative to the state it
started from: `source` and `start` are unchanged, `current` moves forward
and stays in bounds, and the tokens/reports either stay unchanged, or gain
one token whose lexeme is `source[start:current]`, or gain a paired
(report, OTHER token), or gain only an "Unterminated string." report. -/
def SpecConcl (sc0 sc' : Scanner) : Prop :=
  sc'.source = sc0.source ∧ sc'.start = sc0.start ∧
  sc0.current ≤ sc'.current ∧ sc'.current ≤ sc0.source.length ∧
  ((sc'.tokens = sc0.tokens ∧ sc'.reports = sc0.reports) ∨
   (∃ t, sc'.tokens = sc0.tokens ++ [t] ∧
      t.lexeme = sliceStr sc0.source sc0.start sc'.current ∧
      sc'.reports = sc0.reports) ∨
   (∃ t l m, sc'.tokens = sc0.tokens ++ [t] ∧ t._type = TokenType.OTHER ∧
      t.lexeme = sliceStr sc0.source sc0.start sc'.current ∧
      sc'.reports = sc0.reports ++ [(l, m)] ∧
      m ≠ "Unterminated string." ∧ m ≠ "Unterminated comment.") ∨
   (sc'.tokens = sc0.tokens ∧
      ∃ l, sc'.reports = sc0.reports ++ [(l, "Unterminated string.")]))

/-- The first `e` characters of `src` split into adjacent pieces, each piece
either the lexeme of the next emitted token (`tok`) or skipped text
(`skip`). -/
inductive Reconstructs (src : List Char) : Nat → List Token → Prop where
  | nil : Reconstructs src 0 []
  | tok (b e : Nat) (ts : List Token) (t : Token) :
      Reconstructs src b ts → b ≤ e → e ≤ src.length →
      t.lexeme = sliceStr src b e → Reconstructs src e (ts ++ [t])
  | skip (b e : Nat) (ts : List Token) :
      Reconstructs src b ts → b ≤ e → e ≤ src.length → Reconstructs src e ts

/-- Concatenation of a list of pieces `(text, is-token-lexeme)`, as the
underlying character list. -/
def joinPieces : List (String × Bool) → List Char
  | [] => []
  | p :: ps => p.1.data ++ joinPieces ps

/-- C1: the spec claims `scan_tokens` never raises for any input and reports
lexical errors only through the Error Reporter.  The code violates this: on
the well-formed one-character source "1", `_number`'s loop condition
`self._peek().isdigit()` is evaluated with `_peek()` returning `None` at end
of input, raising `AttributeError`, which propagates out of `scan_tokens`.
This theorem evaluates the embedded code at that failing input. -/
theorem scan_tokens_raises_on_digit_at_eof :
    scanTokensOf "1" = .error .attributeError := rfl

/-- C2: the spec claims that on `'/'` followed by `'*'` the scanner consumes
a block comment and emits no token.  In the code the block-comment arm
(lexer.py:330-338) is dead: Python's `match` takes the first matching arm,
and `case '/'` at lexer.py:287 always emits a slash token.  Scanning "/*"
therefore yields a SLASH token and a STAR token and reports nothing — no
comment is consumed and no "Unterminated comment." is ever reported. -/
theorem slash_star_emits_two_tokens :
    scanTokensOf "/*" = .ok [⟨.SLASH, "/", .none, 1⟩, ⟨.STAR, "*", .none, 1⟩] ∧
    scanReportsOf "/*" = .ok [] := ⟨rfl, rfl⟩

/-- C3: the spec claims every `'\n'` increments the line counter exactly
once, including the newline that terminates a `'#'` line comment.  In the
code that newline is consumed by `_match("\n")` inside the `'#'` arm
(lexer.py:328), which increments `current` but never `line`.  On "#\n&" the
`'&'` sits on source line 2, yet both its OTHER token and its error report
carry line 1. -/
theorem hash_comment_newline_skips_line_count :
    scanTokensOf "#\n&" = .ok [⟨.OTHER, "&", .none, 1⟩] ∧
    scanReportsOf "#\n&" = .ok [(1, "Unexpected character.")] := ⟨rfl, rfl⟩

/-- C4: the spec claims scanning "1+2" returns number(1.0), plus,
number(2.0).  The code instead raises `AttributeError` while scanning the
final "2": `_number` evaluates `self._peek().isdigit()` with `_peek()`
returning `None` at end of input.  No token list is ever returned. -/
theorem scan_one_plus_two_raises :
    scanTokensOf "1+2" = .error .attributeError := rfl

/-- C5: the spec claims scanning "3." yields number(3.0) then a dot token.
The code instead raises `AttributeError`: after the digit run, `_peek()`
returns `'.'`, so `_number` evaluates `self._peek_next().isdigit()` — and
`_peek_next()` returns `None` because the dot is the last character. -/
theorem scan_three_dot_raises :
    scanTokensOf "3." = .error .attributeError := rfl

/-- C6: the spec claims the `'#'` arm consumes up to but NOT including the
terminating newline (leaving it for the next dispatch step) and also handles
a comment that runs to end of input.  The code does neither: on "#c" (no
newline) `_match` returns `False` at end of input and `_advance` then raises
`IndexError`; and on "#\n+" the newline IS consumed by `_match("\n")` inside
the comment arm, so it is never dispatched and `line` stays 1 — the
following PLUS token carries line 1 instead of 2. -/
theorem hash_comment_eof_raises_and_newline_consumed :
    scanTokensOf "#c" = .error .indexError ∧
    scanTokensOf "#\n+" = .ok [⟨.PLUS, "+", .none, 1⟩] := ⟨rfl, rfl⟩

/-- C9: the spec claims every `report` call toggles `main.hadError` so that
`run_file` exits with status 65 exactly when some lexical error was
reported.  In the code `error.report` only logs (error.py:17-18) and nothing
ever assigns `hadError` (main.py:6 initializes it to `False`), so after
scanning a file containing "&" one error has been reported yet `hadError` is
still `false` and the `sys.exit(65)` branch is not taken (exit code `none`,
i.e. a normal status-0 termination). -/
theorem run_file_never_exits_65 :
    runFile "&" = .ok ([⟨.OTHER, "&", .none, 1⟩], [(1, "Unexpected character.")], false, none) :=
  rfl

/-- A successful `_peek` implies the cursor is in bounds. -/
theorem peek_some_lt (sc : Scanner) (c : Char) (h : sc.peek = some c) :
    sc.current < sc.source.length := by
  unfold Scanner.peek at h
  split at h
  · assumption
  · exact Option.noConfusion h

/-- `_match` preserves everything but `current`, which it advances by at
most one while staying in bounds. -/
theorem matchChar_spec (sc : Scanner) (e : Char) (b : Bool) (sc1 : Scanner)
    (h : sc.matchChar e = (b, sc1)) : LoopPreserves sc sc1 := by
  unfold Scanner.matchChar at h
  split at h
  · rename_i hlt
    split at h
    · cases h; exact ⟨rfl, rfl, rfl, rfl, Nat.le_succ _, fun _ => hlt⟩
    · cases h; exact ⟨rfl, rfl, rfl, rfl, Nat.le_refl _, fun hb => hb⟩
  · cases h; exact ⟨rfl, rfl, rfl, rfl, Nat.le_refl _, fun hb => hb⟩

/-- The `_string` scan loop only moves the cursor and the line counter. -/
theorem stringLoop_spec (fuel : Nat) :
    ∀ sc sc1 : Scanner, Scanner.stringLoop fuel sc = .ok sc1 → LoopPreserves sc sc1 := by
  induction fuel with
  | zero => intro sc sc1 h; exact Except.noConfusion h
  | succ n ih =>
    intro sc sc1 h
    unfold Scanner.stringLoop at h
    split at h
    · rename_i hlt
      split at h
      · cases h; exact ⟨rfl, rfl, rfl, rfl, Nat.le_refl _, fun hb => hb⟩
      · split at h
        · obtain ⟨h1, h2, h3, h4, h5, h6⟩ := ih _ _ h
          exact ⟨h1, h2, h3, h4, Nat.le_trans (Nat.le_succ _) h5, fun _ => h6 hlt⟩
        · obtain ⟨h1, h2, h3, h4, h5, h6⟩ := ih _ _ h
          exact ⟨h1, h2, h3, h4, Nat.le_trans (Nat.le_succ _) h5, fun _ => h6 hlt⟩
    · cases h; exact ⟨rfl, rfl, rfl, rfl, Nat.le_refl _, fun hb => hb⟩

/-- The digit loop of `_number` only moves the cursor. -/
theorem numberLoop_spec (fuel : Nat) :
    ∀ sc sc1 : Scanner, Scanner.numberLoop fuel sc = .ok sc1 → LoopPreserves sc sc1 := by
  induction fuel with
  | zero => intro sc sc1 h; exact Except.noConfusion h
  | succ n ih =>
    intro sc sc1 h
    unfold Scanner.numberLoop at h
    split at h
    · rename_i hlt
      split at h
      · obtain ⟨h1, h2, h3, h4, h5, h6⟩ := ih _ _ h
        exact ⟨h1, h2, h3, h4, Nat.le_trans (Nat.le_succ _) h5, fun _ => h6 hlt⟩
      · cases h; exact ⟨rfl, rfl, rfl, rfl, Nat.le_refl _, fun hb => hb⟩
    · exact Except.noConfusion h

/-- The identifier loop of `_name` only moves the cursor. -/
theorem nameLoop_spec (fuel : Nat) :
    ∀ sc sc1 : Scanner, Scanner.nameLoop fuel sc = .ok sc1 → LoopPreserves sc sc1 := by
  induction fuel with
  | zero => intro sc sc1 h; exact Except.noConfusion h
  | succ n ih =>
    intro sc sc1 h
    unfold Scanner.nameLoop at h
    split at h
    · rename_i hlt
      split at h
      · obtain ⟨h1, h2, h3, h4, h5, h6⟩ := ih _ _ h
        exact ⟨h1, h2, h3, h4, Nat.le_trans (Nat.le_succ _) h5, fun _ => h6 hlt⟩
      · cases h; exact ⟨rfl, rfl, rfl, rfl, Nat.le_refl _, fun hb => hb⟩
    · exact Except.noConfusion h

/-- The `'#'`-comment loop only moves the cursor (in particular it never
touches `line`, even when it consumes the terminating newline). -/
theorem hashLoop_spec (fuel : Nat) :
    ∀ sc sc1 : Scanner, Scanner.hashLoop fuel sc = .ok sc1 → LoopPreserves sc sc1 := by
  induction fuel with
  | zero => intro sc sc1 h; exact Except.noConfusion h
  | succ n ih =>
    intro sc sc1 h
    unfold Scanner.hashLoop at h
    split at h
    · rename_i hlt
      split at h
      · cases h; exact ⟨rfl, rfl, rfl, rfl, Nat.le_succ _, fun _ => hlt⟩
      · obtain ⟨h1, h2, h3, h4, h5, h6⟩ := ih _ _ h
        exact ⟨h1, h2, h3, h4, Nat.le_trans (Nat.le_succ _) h5, fun _ => h6 hlt⟩
    · exact Except.noConfusion h

/-- The interpolated "Unexpected character {c}. " message, as a character
list (the string-append structure made explicit). -/
theorem unexpectedCharMsg_data (c : Char) :
    (unexpectedCharMsg c).data = ("Unexpected character ".data ++ [c]) ++ ". ".data := rfl

/-- The interpolated message always has 24 characters. -/
theorem unexpectedCharMsg_length (c : Char) : (unexpectedCharMsg c).data.length = 24 := by
  rw [unexpectedCharMsg_data, List.length_append, List.length_append]
  rfl

/-- The interpolated message is never the unterminated-string message. -/
theorem unexpectedCharMsg_ne_unterm_string (c : Char) :
    unexpectedCharMsg c ≠ "Unterminated string." := by
  intro hcontra
  have h1 : (unexpectedCharMsg c).data.length = ("Unterminated string." : String).data.length := by
    rw [hcontra]
  rw [unexpectedCharMsg_length] at h1
  exact absurd h1 (by decide)

/-- The interpolated message is never the unterminated-comment message. -/
theorem unexpectedCharMsg_ne_unterm_comment (c : Char) :
    unexpectedCharMsg c ≠ "Unterminated comment." := by
  intro hcontra
  have h1 : (unexpectedCharMsg c).data.length = ("Unterminated comment." : String).data.length := by
    rw [hcontra]
  rw [unexpectedCharMsg_length] at h1
  exact absurd h1 (by decide)

/-- Emitting a plain token from a state related to the step's initial state
by `LoopPreserves`-style facts yields the token outcome of `SpecConcl`. -/
theorem specConcl_add_token (sc0 sc1 : Scanner) (T : TokenType) (lit : Literal)
    (h1 : sc1.source = sc0.source) (h2 : sc1.start = sc0.start)
    (h3 : sc1.tokens = sc0.tokens) (h4 : sc1.reports = sc0.reports)
    (h5 : sc0.current ≤ sc1.current) (h6 : sc1.current ≤ sc0.source.length) :
    SpecConcl sc0 (sc1.add_token T lit) := by
  refine ⟨h1, h2, h5, h6, Or.inr (Or.inl
    ⟨{ _type := T, lexeme := sliceStr sc1.source sc1.start sc1.current,
       literal := lit, line := sc1.line }, ?_, ?_, h4⟩)⟩
  · show sc1.tokens ++ _ = sc0.tokens ++ _
    rw [h3]
  · show sliceStr sc1.source sc1.start sc1.current = sliceStr sc0.source sc0.start sc1.current
    rw [h1, h2]

/-- The single-character arms of the dispatch: consume one character and
emit one token. -/
theorem specConcl_add_single (sc0 : Scanner) (hlt : sc0.current < sc0.source.length)
    (T : TokenType) (lit : Literal) :
    SpecConcl sc0 (({ sc0 with current := sc0.current + 1 } : Scanner).add_token T lit) :=
  specConcl_add_token sc0 _ T lit rfl rfl rfl rfl (Nat.le_succ _) hlt

/-- The report-then-OTHER-token arms of the dispatch. -/
theorem specConcl_err_other (sc0 sc1 : Scanner) (msg : String)
    (h1 : sc1.source = sc0.source) (h2 : sc1.start = sc0.start)
    (h3 : sc1.tokens = sc0.tokens) (h4 : sc1.reports = sc0.reports)
    (h5 : sc0.current ≤ sc1.current) (h6 : sc1.current ≤ sc0.source.length)
    (hm1 : msg ≠ "Unterminated string.") (hm2 : msg ≠ "Unterminated comment.") :
    SpecConcl sc0 ((sc1.report msg).add_token .OTHER .none) := by
  refine ⟨h1, h2, h5, h6, Or.inr (Or.inr (Or.inl
    ⟨{ _type := .OTHER, lexeme := sliceStr sc1.source sc1.start sc1.current,
       literal := .none, line := sc1.line }, sc1.line, msg, ?_, rfl, ?_, ?_, hm1, hm2⟩))⟩
  · show sc1.tokens ++ _ = sc0.tokens ++ _
    rw [h3]
    rfl
  · show sliceStr sc1.source sc1.start sc1.current = sliceStr sc0.source sc0.start sc1.current
    rw [h1, h2]
  · show sc1.reports ++ _ = sc0.reports ++ _
    rw [h4]

/-- The token-less arms of the dispatch (whitespace, newline, `'#'`). -/
theorem specConcl_quiet (sc0 sc1 : Scanner)
    (h1 : sc1.source = sc0.source) (h2 : sc1.start = sc0.start)
    (h3 : sc1.tokens = sc0.tokens) (h4 : sc1.reports = sc0.reports)
    (h5 : sc0.current ≤ sc1.current) (h6 : sc1.current ≤ sc0.source.length) :
    SpecConcl sc0 sc1 :=
  ⟨h1, h2, h5, h6, Or.inl ⟨h3, h4⟩⟩

/-- What a successful `_string` does: either the unterminated-string report
with no token, or one token whose lexeme is `source[start:current]`. -/
theorem string_spec (sc sc' : Scanner) (h : Scanner.string sc = .ok sc') :
    sc'.source = sc.source ∧ sc'.start = sc.start ∧ sc.current ≤ sc'.current ∧
    (sc.current ≤ sc.source.length → sc'.current ≤ sc.source.length) ∧
    ((sc'.tokens = sc.tokens ∧ ∃ l, sc'.reports = sc.reports ++ [(l, "Unterminated string.")]) ∨
     (∃ t, sc'.tokens = sc.tokens ++ [t] ∧
        t.lexeme = sliceStr sc.source sc.start sc'.current ∧ sc'.reports = sc.reports)) := by
  unfold Scanner.string at h
  split at h
  · exact Except.noConfusion h
  · rename_i sc1 heq
    obtain ⟨h1, h2, h3, h4, h5, h6⟩ := stringLoop_spec _ _ _ heq
    split at h
    · rename_i hend
      cases h
      refine ⟨h1, h2, h5, h6, Or.inl ⟨h3, sc1.line, ?_⟩⟩
      show sc1.reports ++ _ = sc.reports ++ _
      rw [h4]
    · rename_i hend
      cases h
      have hlt1 : sc1.current < sc1.source.length := Nat.lt_of_not_le hend
      refine ⟨h1, h2, Nat.le_trans h5 (Nat.le_succ _), ?_, Or.inr
        ⟨{ _type := .STRING,
           lexeme := sliceStr sc1.source sc1.start (sc1.current + 1),
           literal := .str (sliceStr sc1.source (sc1.start + 1) (sc1.current + 1 - 1)),
           line := sc1.line }, ?_, ?_, h4⟩⟩
      · intro _
        have h7 := hlt1
        rw [h1] at h7
        exact h7
      · show sc1.tokens ++ _ = sc.tokens ++ _
        rw [h3]
      · show sliceStr sc1.source sc1.start (sc1.current + 1)
            = sliceStr sc.source sc.start (sc1.current + 1)
        rw [h1, h2]

/-- The fractional-part step of `_number` preserves everything but the
cursor when it succeeds. -/
theorem numberFrac_spec (sc sc1 : Scanner) (h : numberFrac sc = .ok sc1) :
    LoopPreserves sc sc1 := by
  unfold numberFrac at h
  split at h
  · rename_i hdot
    split at h
    · exact Except.noConfusion h
    · rename_i c2 hc2
      split at h
      · have hlt := peek_some_lt sc '.' hdot
        obtain ⟨h1, h2, h3, h4, h5, h6⟩ := numberLoop_spec _ _ _ h
        exact ⟨h1, h2, h3, h4, Nat.le_trans (Nat.le_succ _) h5, fun _ => h6 hlt⟩
      · cases h; exact ⟨rfl, rfl, rfl, rfl, Nat.le_refl _, fun hb => hb⟩
  · cases h; exact ⟨rfl, rfl, rfl, rfl, Nat.le_refl _, fun hb => hb⟩

/-- What a successful `_number` does: one NUMBER token whose lexeme is
`source[start:current]`, no reports. -/
theorem number_spec (sc sc' : Scanner) (h : Scanner.number sc = .ok sc') :
    sc'.source = sc.source ∧ sc'.start = sc.start ∧ sc.current ≤ sc'.current ∧
    (sc.current ≤ sc.source.length → sc'.current ≤ sc.source.length) ∧
    sc'.reports = sc.reports ∧
    ∃ t, sc'.tokens = sc.tokens ++ [t] ∧ t.lexeme = sliceStr sc.source sc.start sc'.current := by
  unfold Scanner.number at h
  split at h
  · exact Except.noConfusion h
  · rename_i sc1 heq1
    split at h
    · exact Except.noConfusion h
    · rename_i sc3 heq3
      cases h
      obtain ⟨a1, a2, a3, a4, a5, a6⟩ := numberLoop_spec _ _ _ heq1
      obtain ⟨b1, b2, b3, b4, b5, b6⟩ := numberFrac_spec _ _ heq3
      refine ⟨b1.trans a1, b2.trans a2, Nat.le_trans a5 b5, ?_, b4.trans a4,
        ⟨{ _type := .NUMBER, lexeme := sliceStr sc3.source sc3.start sc3.current,
           literal := .num (pyFloat (pySlice sc3.source sc3.start sc3.current)),
           line := sc3.line }, ?_, ?_⟩⟩
      · intro hb
        have c1 := a6 hb
        rw [← a1] at c1
        have c2 := b6 c1
        rw [a1] at c2
        exact c2
      · show sc3.tokens ++ _ = sc.tokens ++ _
        rw [b3, a3]
      · show sliceStr sc3.source sc3.start sc3.current
            = sliceStr sc.source sc.start sc3.current
        rw [b1, a1, b2, a2]

/-- What a successful `_name` does: one token whose lexeme is
`source[start:current]`, no reports. -/
theorem name_spec (sc sc' : Scanner) (h : Scanner.name sc = .ok sc') :
    sc'.source = sc.source ∧ sc'.start = sc.start ∧ sc.current ≤ sc'.current ∧
    (sc.current ≤ sc.source.length → sc'.current ≤ sc.source.length) ∧
    sc'.reports = sc.reports ∧
    ∃ t, sc'.tokens = sc.tokens ++ [t] ∧ t.lexeme = sliceStr sc.source sc.start sc'.current := by
  unfold Scanner.name at h
  split at h
  · exact Except.noConfusion h
  · rename_i sc1 heq1
    cases h
    obtain ⟨a1, a2, a3, a4, a5, a6⟩ := nameLoop_spec _ _ _ heq1
    refine ⟨a1, a2, a5, a6, a4,
      ⟨{ _type := keywordLookup (sliceStr sc1.source sc1.start sc1.current),
         lexeme := sliceStr sc1.source sc1.start sc1.current,
         literal := .none, line := sc1.line }, ?_, ?_⟩⟩
    · show sc1.tokens ++ _ = sc.tokens ++ _
      rw [a3]
    · show sliceStr sc1.source sc1.start sc1.current
          = sliceStr sc.source sc.start sc1.current
      rw [a1, a2]


/-- Master description of one successful `_scan_token` dispatch step. -/
theorem scan_token_spec (sc0 sc' : Scanner) (h : sc0.scan_token = .ok sc') :
    SpecConcl sc0 sc' := by
  unfold Scanner.scan_token at h
  split at h
  · exact Except.noConfusion h
  · rename_i c sc heq
    unfold Scanner.advance at heq
    split at heq
    · rename_i hlt
      injection heq with hpair
      injection hpair with hc hsc
      subst hsc
      clear hc
      by_cases hc1 : c = '('
      · rw [if_pos hc1] at h
        cases h
        exact specConcl_add_single sc0 hlt .LEFT_PAREN .none
      rw [if_neg hc1] at h
      by_cases hc2 : c = ')'
      · rw [if_pos hc2] at h
        cases h
        exact specConcl_add_single sc0 hlt .RIGHT_PAREN .none
      rw [if_neg hc2] at h
      by_cases hc3 : c = '\x7b'
      · rw [if_pos hc3] at h
        cases h
        exact specConcl_add_single sc0 hlt .LEFT_BRACE .none
      rw [if_neg hc3] at h
      by_cases hc4 : c = '\x7d'
      · rw [if_pos hc4] at h
        cases h
        exact specConcl_add_single sc0 hlt .RIGHT_BRACE .none
      rw [if_neg hc4] at h
      by_cases hc5 : c = ','
      · rw [if_pos hc5] at h
        cases h
        exact specConcl_add_single sc0 hlt .COMMA .none
      rw [if_neg hc5] at h
      by_cases hc6 : c = '.'
      · rw [if_pos hc6] at h
        cases h
        exact specConcl_add_single sc0 hlt .DOT .none
      rw [if_neg hc6] at h
      by_cases hc7 : c = '+'
      · rw [if_pos hc7] at h
        cases h
        exact specConcl_add_single sc0 hlt .PLUS .none
      rw [if_neg hc7] at h
      by_cases hc8 : c = ';'
      · rw [if_pos hc8] at h
        cases h
        exact specConcl_add_single sc0 hlt .SEMICOLON .none
      rw [if_neg hc8] at h
      by_cases hc9 : c = '/'
      · rw [if_pos hc9] at h
        cases h
        exact specConcl_add_single sc0 hlt .SLASH .none
      rw [if_neg hc9] at h
      by_cases hc10 : c = '*'
      · rw [if_pos hc10] at h
        cases h
        exact specConcl_add_single sc0 hlt .STAR .none
      rw [if_neg hc10] at h
      by_cases hc11 : c = ':'
      · rw [if_pos hc11] at h
        cases h
        exact specConcl_add_single sc0 hlt .TYPEOF .none
      rw [if_neg hc11] at h
      by_cases hc12 : c = '-'
      · rw [if_pos hc12] at h
        split at h
        · rename_i sc1 heqm
          cases h
          obtain ⟨m1, m2, m3, m4, m5, m6⟩ := matchChar_spec _ _ _ _ heqm
          exact specConcl_add_token sc0 sc1 .RARROW .none m1 m2 m3 m4
            (Nat.le_trans (Nat.le_succ _) m5) (m6 hlt)
        · rename_i sc1 heqm
          cases h
          obtain ⟨m1, m2, m3, m4, m5, m6⟩ := matchChar_spec _ _ _ _ heqm
          exact specConcl_add_token sc0 sc1 .MINUS .none m1 m2 m3 m4
            (Nat.le_trans (Nat.le_succ _) m5) (m6 hlt)
      rw [if_neg hc12] at h
      by_cases hc13 : c = '!'
      · rw [if_pos hc13] at h
        split at h
        · rename_i sc1 heqm
          cases h
          obtain ⟨m1, m2, m3, m4, m5, m6⟩ := matchChar_spec _ _ _ _ heqm
          exact specConcl_add_token sc0 sc1 .NEQ .none m1 m2 m3 m4
            (Nat.le_trans (Nat.le_succ _) m5) (m6 hlt)
        · rename_i sc1 heqm
          cases h
          obtain ⟨m1, m2, m3, m4, m5, m6⟩ := matchChar_spec _ _ _ _ heqm
          exact specConcl_add_token sc0 sc1 .NOT .none m1 m2 m3 m4
            (Nat.le_trans (Nat.le_succ _) m5) (m6 hlt)
      rw [if_neg hc13] at h
      by_cases hc14 : c = '|'
      · rw [if_pos hc14] at h
        split at h
        · rename_i sc1 heqm
          cases h
          obtain ⟨m1, m2, m3, m4, m5, m6⟩ := matchChar_spec _ _ _ _ heqm
          exact specConcl_add_token sc0 sc1 .OR .none m1 m2 m3 m4
            (Nat.le_trans (Nat.le_succ _) m5) (m6 hlt)
        · rename_i sc1 heqm
          cases h
          obtain ⟨m1, m2, m3, m4, m5, m6⟩ := matchChar_spec _ _ _ _ heqm
          exact specConcl_err_other sc0 sc1 "Unexpected character." m1 m2 m3 m4
            (Nat.le_trans (Nat.le_succ _) m5) (m6 hlt) (by decide) (by decide)
      rw [if_neg hc14] at h
      by_cases hc15 : c = '&'
      · rw [if_pos hc15] at h
        split at h
        · rename_i sc1 heqm
          cases h
          obtain ⟨m1, m2, m3, m4, m5, m6⟩ := matchChar_spec _ _ _ _ heqm
          exact specConcl_add_token sc0 sc1 .AND .none m1 m2 m3 m4
            (Nat.le_trans (Nat.le_succ _) m5) (m6 hlt)
        · rename_i sc1 heqm
          cases h
          obtain ⟨m1, m2, m3, m4, m5, m6⟩ := matchChar_spec _ _ _ _ heqm
          exact specConcl_err_other sc0 sc1 "Unexpected character." m1 m2 m3 m4
            (Nat.le_trans (Nat.le_succ _) m5) (m6 hlt) (by decide) (by decide)
      rw [if_neg hc15] at h
      by_cases hc16 : c = '='
      · rw [if_pos hc16] at h
        split at h
        · rename_i sc1 heqm
          cases h
          obtain ⟨m1, m2, m3, m4, m5, m6⟩ := matchChar_spec _ _ _ _ heqm
          exact specConcl_add_token sc0 sc1 .EQ .none m1 m2 m3 m4
            (Nat.le_trans (Nat.le_succ _) m5) (m6 hlt)
        · rename_i sc1 heqm
          cases h
          obtain ⟨m1, m2, m3, m4, m5, m6⟩ := matchChar_spec _ _ _ _ heqm
          exact specConcl_add_token sc0 sc1 .ASSIGN .none m1 m2 m3 m4
            (Nat.le_trans (Nat.le_succ _) m5) (m6 hlt)
      rw [if_neg hc16] at h
      by_cases hc17 : c = '<'
      · rw [if_pos hc17] at h
        split at h
        · rename_i sc1 heqm
          cases h
          obtain ⟨m1, m2, m3, m4, m5, m6⟩ := matchChar_spec _ _ _ _ heqm
          exact specConcl_add_token sc0 sc1 .LTE .none m1 m2 m3 m4
            (Nat.le_trans (Nat.le_succ _) m5) (m6 hlt)
        · rename_i sc1 heqm
          cases h
          obtain ⟨m1, m2, m3, m4, m5, m6⟩ := matchChar_spec _ _ _ _ heqm
          exact specConcl_add_token sc0 sc1 .LESS .none m1 m2 m3 m4
            (Nat.le_trans (Nat.le_succ _) m5) (m6 hlt)
      rw [if_neg hc17] at h
      by_cases hc18 : c = '>'
      · rw [if_pos hc18] at h
        split at h
        · rename_i sc1 heqm
          cases h
          obtain ⟨m1, m2, m3, m4, m5, m6⟩ := matchChar_spec _ _ _ _ heqm
          exact specConcl_add_token sc0 sc1 .GTE .none m1 m2 m3 m4
            (Nat.le_trans (Nat.le_succ _) m5) (m6 hlt)
        · rename_i sc1 heqm
          cases h
          obtain ⟨m1, m2, m3, m4, m5, m6⟩ := matchChar_spec _ _ _ _ heqm
          exact specConcl_add_token sc0 sc1 .GREATER .none m1 m2 m3 m4
            (Nat.le_trans (Nat.le_succ _) m5) (m6 hlt)
      rw [if_neg hc18] at h
      by_cases hc19 : c = '#'
      · rw [if_pos hc19] at h
        obtain ⟨p1, p2, p3, p4, p5, p6⟩ := hashLoop_spec _ _ _ h
        exact specConcl_quiet sc0 sc' p1 p2 p3 p4
          (Nat.le_trans (Nat.le_succ _) p5) (p6 hlt)
      rw [if_neg hc19] at h
      by_cases hc20 : c = ' '
      · rw [if_pos hc20] at h
        cases h
        exact specConcl_quiet sc0 _ rfl rfl rfl rfl (Nat.le_succ _) hlt
      rw [if_neg hc20] at h
      by_cases hc21 : c = '\t'
      · rw [if_pos hc21] at h
        cases h
        exact specConcl_quiet sc0 _ rfl rfl rfl rfl (Nat.le_succ _) hlt
      rw [if_neg hc21] at h
      by_cases hc22 : c = '\r'
      · rw [if_pos hc22] at h
        cases h
        exact specConcl_quiet sc0 _ rfl rfl rfl rfl (Nat.le_succ _) hlt
      rw [if_neg hc22] at h
      by_cases hc23 : c = '\n'
      · rw [if_pos hc23] at h
        cases h
        exact specConcl_quiet sc0 _ rfl rfl rfl rfl (Nat.le_succ _) hlt
      rw [if_neg hc23] at h
      by_cases hc24 : c = '"'
      · rw [if_pos hc24] at h
        obtain ⟨s1, s2, s3, s4, s5⟩ := string_spec _ _ h
        refine ⟨s1, s2, Nat.le_trans (Nat.le_succ _) s3, s4 hlt, ?_⟩
        rcases s5 with ⟨ht, l, hr⟩ | ⟨t, ht, hl, hr⟩
        · exact Or.inr (Or.inr (Or.inr ⟨ht, l, hr⟩))
        · exact Or.inr (Or.inl ⟨t, ht, hl, hr⟩)
      rw [if_neg hc24] at h
      split at h
      · obtain ⟨n1, n2, n3, n4, n5, nt⟩ := number_spec _ _ h
        obtain ⟨t, ht, hl⟩ := nt
        exact ⟨n1, n2, Nat.le_trans (Nat.le_succ _) n3, n4 hlt, Or.inr (Or.inl ⟨t, ht, hl, n5⟩)⟩
      split at h
      · obtain ⟨n1, n2, n3, n4, n5, nt⟩ := name_spec _ _ h
        obtain ⟨t, ht, hl⟩ := nt
        exact ⟨n1, n2, Nat.le_trans (Nat.le_succ _) n3, n4 hlt, Or.inr (Or.inl ⟨t, ht, hl, n5⟩)⟩
      cases h
      exact specConcl_err_other sc0 _ (unexpectedCharMsg _) rfl rfl rfl rfl
        (Nat.le_succ _) hlt (unexpectedCharMsg_ne_unterm_string _)
        (unexpectedCharMsg_ne_unterm_comment _)
    · exact Except.noConfusion heq

/-- C7: error cases differ in token emission exactly as stated.  Scanning
"&" alone reports one unexpected-character error at line 1 and yields
exactly one OTHER token; an unterminated string literal reports
"Unterminated string." and emits no token; and in general, for every
successful dispatch step, a report of an unterminated string or comment
comes with no token while any other report comes with exactly one OTHER
token appended. -/
theorem error_token_discipline :
    (scanTokensOf "&" = .ok [⟨.OTHER, "&", .none, 1⟩] ∧
     scanReportsOf "&" = .ok [(1, "Unexpected character.")]) ∧
    (scanTokensOf "\"ab" = .ok [] ∧
     scanReportsOf "\"ab" = .ok [(1, "Unterminated string.")]) ∧
    (∀ sc sc' : Scanner, sc.scan_token = .ok sc' →
      sc'.reports = sc.reports ∨
      ∃ l m, sc'.reports = sc.reports ++ [(l, m)] ∧
        ((m = "Unterminated string." ∨ m = "Unterminated comment.") →
          sc'.tokens = sc.tokens) ∧
        (m ≠ "Unterminated string." → m ≠ "Unterminated comment." →
          ∃ t, sc'.tokens = sc.tokens ++ [t] ∧ t._type = TokenType.OTHER)) := by
  refine ⟨⟨rfl, rfl⟩, ⟨rfl, rfl⟩, ?_⟩
  intro sc sc' h
  obtain ⟨-, -, -, -, hcase⟩ := scan_token_spec sc sc' h
  rcases hcase with ⟨ht, hr⟩ | ⟨t, ht, hl, hr⟩ | ⟨t, l, m, ht, hty, hl, hr, hm1, hm2⟩ | ⟨ht, l, hr⟩
  · exact Or.inl hr
  · exact Or.inl hr
  · refine Or.inr ⟨l, m, hr, ?_, ?_⟩
    · intro hor
      rcases hor with h1 | h1
      · exact absurd h1 hm1
      · exact absurd h1 hm2
    · intro _ _
      exact ⟨t, ht, hty⟩
  · refine Or.inr ⟨l, "Unterminated string.", hr, fun _ => ht, ?_⟩
    intro hne _
    exact absurd rfl hne

/-- Witness: the hypothesised part of `error_token_discipline`, at the
concrete dispatch step on the one-character source "+". -/
theorem error_token_discipline_witness :
    (⟨"+".data, [⟨.PLUS, "+", .none, 1⟩], 0, 1, 1, []⟩ : Scanner).reports
        = (initScanner "+").reports ∨
    ∃ l m, (⟨"+".data, [⟨.PLUS, "+", .none, 1⟩], 0, 1, 1, []⟩ : Scanner).reports
        = (initScanner "+").reports ++ [(l, m)] ∧
      ((m = "Unterminated string." ∨ m = "Unterminated comment.") →
        (⟨"+".data, [⟨.PLUS, "+", .none, 1⟩], 0, 1, 1, []⟩ : Scanner).tokens
            = (initScanner "+").tokens) ∧
      (m ≠ "Unterminated string." → m ≠ "Unterminated comment." →
        ∃ t, (⟨"+".data, [⟨.PLUS, "+", .none, 1⟩], 0, 1, 1, []⟩ : Scanner).tokens
            = (initScanner "+").tokens ++ [t] ∧ t._type = TokenType.OTHER) :=
  error_token_discipline.2.2 (initScanner "+")
    ⟨"+".data, [⟨.PLUS, "+", .none, 1⟩], 0, 1, 1, []⟩ rfl

/-- Adjacent Python slices concatenate. -/
theorem pySlice_glue (src : List Char) (a b c : Nat) (hab : a ≤ b) (hbc : b ≤ c) :
    pySlice src a b ++ pySlice src b c = pySlice src a c := by
  unfold pySlice
  by_cases hs : a ≤ min b src.length
  · have h1 : (src.take c).take b = src.take b := by
      rw [List.take_take, Nat.min_eq_left hbc]
    have h2 : a ≤ ((src.take c).take b).length := by
      rw [h1, List.length_take]
      exact hs
    calc (src.take b).drop a ++ (src.take c).drop b
        = ((src.take c).take b).drop a ++ (src.take c).drop b := by rw [h1]
      _ = ((src.take c).take b ++ (src.take c).drop b).drop a := by
            rw [List.drop_append_of_le_length h2]
      _ = (src.take c).drop a := by rw [List.take_append_drop]
  · have e1 : (src.take b).drop a = [] := by
      apply List.drop_eq_nil_of_le
      rw [List.length_take]
      omega
    have e2 : (src.take c).drop b = [] := by
      apply List.drop_eq_nil_of_le
      rw [List.length_take]
      omega
    have e3 : (src.take c).drop a = [] := by
      apply List.drop_eq_nil_of_le
      rw [List.length_take]
      omega
    rw [e1, e2, e3]
    rfl

/-- `joinPieces` distributes over list append. -/
theorem joinPieces_append (ps qs : List (String × Bool)) :
    joinPieces (ps ++ qs) = joinPieces ps ++ joinPieces qs := by
  induction ps with
  | nil => rfl
  | cons p ps ih =>
    show p.1.data ++ joinPieces (ps ++ qs) = (p.1.data ++ joinPieces ps) ++ joinPieces qs
    rw [ih, List.append_assoc]

/-- Every `Reconstructs` derivation yields an explicit piece decomposition
of the consumed prefix. -/
theorem reconstructs_pieces (src : List Char) (e : Nat) (ts : List Token)
    (h : Reconstructs src e ts) :
    ∃ ps : List (String × Bool),
      joinPieces ps = pySlice src 0 e ∧
      ps.filterMap (fun p => if p.2 then some p.1 else none) = ts.map Token.lexeme ∧
      ∀ p ∈ ps, ∃ a b, a ≤ b ∧ b ≤ src.length ∧ p.1 = sliceStr src a b := by
  induction h with
  | nil =>
    refine ⟨[], rfl, rfl, ?_⟩
    intro p hp
    exact absurd hp (List.not_mem_nil p)
  | tok b2 e2 ts2 t hrec hbe hel hlex ih =>
    obtain ⟨ps, j1, j2, j3⟩ := ih
    refine ⟨ps ++ [(t.lexeme, true)], ?_, ?_, ?_⟩
    · rw [joinPieces_append, j1, hlex]
      show pySlice src 0 b2 ++ (pySlice src b2 e2 ++ []) = pySlice src 0 e2
      rw [List.append_nil]
      exact pySlice_glue src 0 b2 e2 (Nat.zero_le b2) hbe
    · rw [List.filterMap_append, j2, List.map_append]
      rfl
    · intro p hp
      rcases List.mem_append.mp hp with hp1 | hp2
      · exact j3 p hp1
      · have hps : p = (t.lexeme, true) := List.mem_singleton.mp hp2
        subst hps
        exact ⟨b2, e2, hbe, hel, hlex⟩
  | skip b2 e2 ts2 hrec hbe hel ih =>
    obtain ⟨ps, j1, j2, j3⟩ := ih
    refine ⟨ps ++ [(sliceStr src b2 e2, false)], ?_, ?_, ?_⟩
    · rw [joinPieces_append, j1]
      show pySlice src 0 b2 ++ (pySlice src b2 e2 ++ []) = pySlice src 0 e2
      rw [List.append_nil]
      exact pySlice_glue src 0 b2 e2 (Nat.zero_le b2) hbe
    · rw [List.filterMap_append, j2]
      show ts2.map Token.lexeme ++ [] = ts2.map Token.lexeme
      rw [List.append_nil]
    · intro p hp
      rcases List.mem_append.mp hp with hp1 | hp2
      · exact j3 p hp1
      · have hps : p = (sliceStr src b2 e2, false) := List.mem_singleton.mp hp2
        subst hps
        exact ⟨b2, e2, hbe, hel, rfl⟩

/-- Running the scan loop from a state whose consumed prefix is already
decomposed extends the decomposition to the whole source. -/
theorem scanLoop_reconstructs (fuel : Nat) :
    ∀ sc sc' : Scanner, Scanner.scanLoop fuel sc = .ok sc' →
    sc.current ≤ sc.source.length →
    Reconstructs sc.source sc.current sc.tokens →
    sc'.source = sc.source ∧ Reconstructs sc.source sc.source.length sc'.tokens := by
  induction fuel with
  | zero =>
    intro sc sc' h hb hrec
    unfold Scanner.scanLoop at h
    split at h
    · rename_i hend
      cases h
      have hce : sc.current = sc.source.length := Nat.le_antisymm hb hend
      refine ⟨rfl, ?_⟩
      rw [← hce]
      exact hrec
    · exact Except.noConfusion h
  | succ n ih =>
    intro sc sc' h hb hrec
    unfold Scanner.scanLoop at h
    split at h
    · rename_i hend
      cases h
      have hce : sc.current = sc.source.length := Nat.le_antisymm hb hend
      refine ⟨rfl, ?_⟩
      rw [← hce]
      exact hrec
    · rename_i hend
      split at h
      · exact Except.noConfusion h
      · rename_i sc1 heq
        obtain ⟨a1, a2, a3, a4, acase⟩ := scan_token_spec _ _ heq
        have a1' : sc1.source = sc.source := a1
        have a3' : sc.current ≤ sc1.current := a3
        have a4' : sc1.current ≤ sc.source.length := a4
        have hrec1 : Reconstructs sc.source sc1.current sc1.tokens := by
          rcases acase with ⟨ht, hr⟩ | ⟨t, ht, hl, hr⟩
            | ⟨t, l, m, ht, hty, hl, hr, hm1, hm2⟩ | ⟨ht, l, hr⟩
          · have ht' : sc1.tokens = sc.tokens := ht
            rw [ht']
            exact Reconstructs.skip sc.current sc1.current sc.tokens hrec a3' a4'
          · have ht' : sc1.tokens = sc.tokens ++ [t] := ht
            have hl' : t.lexeme = sliceStr sc.source sc.current sc1.current := hl
            rw [ht']
            exact Reconstructs.tok sc.current sc1.current sc.tokens t hrec a3' a4' hl'
          · have ht' : sc1.tokens = sc.tokens ++ [t] := ht
            have hl' : t.lexeme = sliceStr sc.source sc.current sc1.current := hl
            rw [ht']
            exact Reconstructs.tok sc.current sc1.current sc.tokens t hrec a3' a4' hl'
          · have ht' : sc1.tokens = sc.tokens := ht
            rw [ht']
            exact Reconstructs.skip sc.current sc1.current sc.tokens hrec a3' a4'
        have hb1 : sc1.current ≤ sc1.source.length := by
          rw [a1']
          exact a4'
        have hrec1' : Reconstructs sc1.source sc1.current sc1.tokens := by
          rw [a1']
          exact hrec1
        obtain ⟨b1, b2⟩ := ih sc1 sc' h hb1 hrec1'
        refine ⟨by rw [b1, a1'], ?_⟩
        rw [a1'] at b2
        exact b2

/-- C8 (amended): whenever `scan_tokens` returns normally, the source splits
into adjacent pieces, each a contiguous slice `source[a:b]`; the pieces
marked as token pieces are, in order, exactly the lexemes of the emitted
tokens (each token's lexeme being `source[start:current]` at the moment of
its emission), and the concatenation of all pieces — lexemes together with
the skipped text — is the original source, byte for byte.  The original
claim, quantified over every input string, fails because `scan_tokens`
raises on e.g. "1" and returns no token list at all; see
`reconstruction_fails_on_raising_input`. -/
theorem lexemes_reconstruct_source (s : String) (sc' : Scanner)
    (h : scanResult s = .ok sc') :
    ∃ ps : List (String × Bool),
      joinPieces ps = s.data ∧
      ps.filterMap (fun p => if p.2 then some p.1 else none) = sc'.tokens.map Token.lexeme ∧
      (∀ p ∈ ps, ∃ a b, a ≤ b ∧ b ≤ s.data.length ∧ p.1 = sliceStr s.data a b) ∧
      (∀ t ∈ sc'.tokens, ∃ a b, a ≤ b ∧ b ≤ s.data.length ∧
        t.lexeme = sliceStr s.data a b) := by
  obtain ⟨-, hrec⟩ := scanLoop_reconstructs (s.data.length + 1) (initScanner s) sc' h
    (Nat.zero_le _) Reconstructs.nil
  have hrec' : Reconstructs s.data s.data.length sc'.tokens := hrec
  obtain ⟨ps, j1, j2, j3⟩ := reconstructs_pieces s.data s.data.length sc'.tokens hrec'
  refine ⟨ps, ?_, j2, j3, ?_⟩
  · rw [j1]
    show (s.data.take s.data.length).drop 0 = s.data
    rw [List.take_length, List.drop_zero]
  · intro t ht
    have hmem : t.lexeme ∈ ps.filterMap (fun p => if p.2 then some p.1 else none) := by
      rw [j2]
      exact List.mem_map_of_mem Token.lexeme ht
    obtain ⟨p, hp, hpe⟩ := List.mem_filterMap.mp hmem
    obtain ⟨a, b, hab, hbl, hsl⟩ := j3 p hp
    by_cases hb2 : p.2
    · rw [if_pos hb2] at hpe
      injection hpe with hpe
      exact ⟨a, b, hab, hbl, hpe ▸ hsl⟩
    · rw [if_neg hb2] at hpe
      exact Option.noConfusion hpe

/-- Counterexample to C8 as stated: on the source "1" the scanner raises
`AttributeError`, so no token list is emitted at all and no concatenation
of lexemes and skipped text reconstructs the source. -/
theorem reconstruction_fails_on_raising_input :
    scanResult "1" = .error .attributeError := rfl

/-- Witness: the amended C8 at the concrete completing run on "+". -/
theorem lexemes_reconstruct_source_witness :
    ∃ ps : List (String × Bool),
      joinPieces ps = "+".data ∧
      ps.filterMap (fun p => if p.2 then some p.1 else none)
          = (⟨"+".data, [⟨.PLUS, "+", .none, 1⟩], 0, 1, 1, []⟩ : Scanner).tokens.map
              Token.lexeme ∧
      (∀ p ∈ ps, ∃ a b, a ≤ b ∧ b ≤ "+".data.length ∧ p.1 = sliceStr "+".data a b) ∧
      (∀ t ∈ (⟨"+".data, [⟨.PLUS, "+", .none, 1⟩], 0, 1, 1, []⟩ : Scanner).tokens,
        ∃ a b, a ≤ b ∧ b ≤ "+".data.length ∧ t.lexeme = sliceStr "+".data a b) :=
  lexemes_reconstruct_source "+" ⟨"+".data, [⟨.PLUS, "+", .none, 1⟩], 0, 1, 1, []⟩ rfl

/-- C10: scanning is deterministic — two runs of `scan_tokens` over equal
source strings, each on a freshly constructed Scanner, produce identical
outcomes: the same final state, the same report sequence, and token lists
of equal length agreeing pointwise in type, lexeme, literal value and line
number.  The result depends on nothing but the source string: the embedded
scanner is a pure function of it, and in the Python original the
class-level `start`/`current`/`line` defaults are read-only templates, so
separately constructed instances share no mutable state. -/
theorem scan_deterministic (s1 s2 : String) (h : s1 = s2) :
    Scanner.scan_tokens (initScanner s1) = Scanner.scan_tokens (initScanner s2) ∧
    scanResult s1 = scanResult s2 ∧
    scanReportsOf s1 = scanReportsOf s2 ∧
    (scanTokensOf s1).map List.length = (scanTokensOf s2).map List.length ∧
    (scanTokensOf s1).map (List.map Token._type)
        = (scanTokensOf s2).map (List.map Token._type) ∧
    (scanTokensOf s1).map (List.map Token.lexeme)
        = (scanTokensOf s2).map (List.map Token.lexeme) ∧
    (scanTokensOf s1).map (List.map Token.literal)
        = (scanTokensOf s2).map (List.map Token.literal) ∧
    (scanTokensOf s1).map (List.map Token.line)
        = (scanTokensOf s2).map (List.map Token.line) := by
  subst h
  exact ⟨rfl, rfl, rfl, rfl, rfl, rfl, rfl, rfl⟩

/-- Witness: determinism instantiated at the concrete source "&". -/
theorem scan_deterministic_witness :
    Scanner.scan_tokens (initScanner "&") = Scanner.scan_tokens (initScanner "&") ∧
    scanResult "&" = scanResult "&" ∧
    scanReportsOf "&" = scanReportsOf "&" ∧
    (scanTokensOf "&").map List.length = (scanTokensOf "&").map List.length ∧
    (scanTokensOf "&").map (List.map Token._type)
        = (scanTokensOf "&").map (List.map Token._type) ∧
    (scanTokensOf "&").map (List.map Token.lexeme)
        = (scanTokensOf "&").map (List.map Token.lexeme) ∧
    (scanTokensOf "&").map (List.map Token.literal)
        = (scanTokensOf "&").map (List.map Token.literal) ∧
    (scanTokensOf "&").map (List.map Token.line)
        = (scanTokensOf "&").map (List.map Token.line) :=
  scan_deterministic "&" "&" rfl
